import Mathlib

/-!
Verification of the kumo_cloud integration core: the fan/vane codec tables,
the device-state normalization layer (climate.py, sensor.py) and the
resilient HTTP client (api.py), shallowly embedded as executable Lean
definitions, with theorems settling the specified properties.
-/

set_option maxHeartbeats 1000000

/-! ## VendorCodec: fan and vane translation tables (climate.py lines 43-81) -/

/-- Vendor-to-UI fan-speed table, entry for entry from API_TO_UI_FAN in climate.py. -/
def API_TO_UI_FAN : List (String × String) :=
  [("auto", "auto"),
   ("superQuiet", "quiet"),
   ("quiet", "low"),
   ("low", "medium"),
   ("powerful", "high"),
   ("superPowerful", "powerful")]

/-- UI-to-vendor fan-speed table, entry for entry from UI_TO_API_FAN in climate.py. -/
def UI_TO_API_FAN : List (String × String) :=
  [("auto", "auto"),
   ("quiet", "superQuiet"),
   ("low", "quiet"),
   ("medium", "low"),
   ("high", "powerful"),
   ("powerful", "superPowerful")]

/-- Ordered UI fan vocabulary, from UI_FAN_ORDER in climate.py. -/
def UI_FAN_ORDER : List String := ["auto", "quiet", "low", "medium", "high", "powerful"]

/-- Vendor-to-UI vane table, entry for entry from API_TO_UI_VANE in climate.py. -/
def API_TO_UI_VANE : List (String × String) :=
  [("auto", "auto"),
   ("swing", "swing"),
   ("vertical", "lowest"),
   ("midvertical", "low"),
   ("midpoint", "middle"),
   ("midhorizontal", "high"),
   ("horizontal", "highest")]

/-- UI-to-vendor vane table, entry for entry from UI_TO_API_VANE in climate.py. -/
def UI_TO_API_VANE : List (String × String) :=
  [("auto", "auto"),
   ("swing", "swing"),
   ("lowest", "vertical"),
   ("low", "midvertical"),
   ("middle", "midpoint"),
   ("high", "midhorizontal"),
   ("highest", "horizontal")]

/-- Ordered UI vane vocabulary, from UI_VANE_ORDER in climate.py. -/
def UI_VANE_ORDER : List String :=
  ["auto", "swing", "lowest", "low", "middle", "high", "highest"]

/-! ## Operation-mode constants -/

/-- Modelled from the spec: const.py is absent from the sources; section 4.4 of the
spec fixes the vendor operation-mode vocabulary as off, cool, heat, dry, vent, auto,
which are the JSON string values carried in the operationMode field. -/
def OPERATION_MODE_OFF : String := "off"

/-- Modelled from the spec: vendor cool mode string from the missing const.py. -/
def OPERATION_MODE_COOL : String := "cool"

/-- Modelled from the spec: vendor heat mode string from the missing const.py. -/
def OPERATION_MODE_HEAT : String := "heat"

/-- Modelled from the spec: vendor dry mode string from the missing const.py. -/
def OPERATION_MODE_DRY : String := "dry"

/-- Modelled from the spec: vendor vent mode string from the missing const.py. -/
def OPERATION_MODE_VENT : String := "vent"

/-- Modelled from the spec: vendor auto mode string from the missing const.py. -/
def OPERATION_MODE_AUTO : String := "auto"

/-- Abstract HVAC modes of the host platform used by climate.py. -/
inductive HVACMode where
  | off
  | cool
  | heat
  | dry
  | fan_only
  | heat_cool
deriving DecidableEq, Repr

/-- Abstract HVAC actions of the host platform used by climate.py. -/
inductive HVACAction where
  | off
  | heating
  | cooling
  | drying
  | fan
  | idle
deriving DecidableEq, Repr

/-- Mapping from vendor operation modes to HVAC modes, KUMO_TO_HVAC_MODE in climate.py. -/
def KUMO_TO_HVAC_MODE : List (String × HVACMode) :=
  [(OPERATION_MODE_OFF, HVACMode.off),
   (OPERATION_MODE_COOL, HVACMode.cool),
   (OPERATION_MODE_HEAT, HVACMode.heat),
   (OPERATION_MODE_DRY, HVACMode.dry),
   (OPERATION_MODE_VENT, HVACMode.fan_only),
   (OPERATION_MODE_AUTO, HVACMode.heat_cool)]

/-! ## Data model: zone snapshot, device snapshot, capability profile

JSON dictionary fields become Option-valued record fields (none = key absent);
the Python dict.get fallback patterns are mirrored by firstSome and Option.getD. -/

/-- First-present choice, mirroring the Python pattern d.get(key, fallback) where
the fallback is itself an optional lookup. -/
def firstSome {α : Type} (a b : Option α) : Option α :=
  match a with
  | some v => some v
  | none => b

/-- Zone-embedded adapter sub-object: the raw telemetry fields read by the entities. -/
structure Adapter where
  roomTemp : Option ℚ := none
  humidity : Option Int := none
  operationMode : Option String := none
  power : Option Int := none
  fanSpeed : Option String := none
  airDirection : Option String := none
  spCool : Option ℚ := none
  spHeat : Option ℚ := none
deriving DecidableEq, Repr

/-- Zone snapshot: may or may not carry an adapter sub-object. -/
structure ZoneData where
  adapter : Option Adapter := none
deriving DecidableEq, Repr

/-- The adapter with empty-dict default, mirroring zone_data.get with an empty
dictionary fallback as written at each reader in climate.py and sensor.py. -/
def ZoneData.adapterD (z : ZoneData) : Adapter := z.adapter.getD {}

/-- Device-level snapshot fields read by the entities. -/
structure DeviceData where
  roomTemp : Option ℚ := none
  humidity : Option Int := none
  operationMode : Option String := none
  power : Option Int := none
  fanSpeed : Option String := none
  airDirection : Option String := none
  spCool : Option ℚ := none
  spHeat : Option ℚ := none
deriving DecidableEq, Repr

/-- Capability-profile object fields read by climate.py. -/
structure ProfileData where
  numberOfFanSpeeds : Option Int := none
  hasVaneSwing : Option Bool := none
  hasVaneDir : Option Bool := none
  hasModeHeat : Option Bool := none
  hasModeDry : Option Bool := none
  hasModeVent : Option Bool := none
deriving DecidableEq, Repr

/-- The cached profile payload: absent, a single object, or a list of objects
(the API returns a list; both forms are accepted by climate.py). -/
inductive Profile where
  | missing
  | obj (d : ProfileData)
  | arr (l : List ProfileData)
deriving DecidableEq, Repr

/-- The profile object climate.py works with: the Python guard (if profile:)
followed by (profile[0] if isinstance(profile, list) else profile); a missing
profile and an empty list are both falsy and yield none. -/
def Profile.first? : Profile → Option ProfileData
  | .missing => none
  | .obj d => some d
  | .arr [] => none
  | .arr (d :: _) => some d

/-- The cached inputs of one climate/sensor entity: zone snapshot, device
snapshot and capability profile, the fields of KumoCloudDevice read by the
entity properties. -/
structure DeviceState where
  zone_data : ZoneData := {}
  device_data : DeviceData := {}
  profile_data : Profile := .missing
deriving DecidableEq, Repr

/-! ## DeviceView: normalized readers (climate.py, sensor.py)

The repeated inline read device_data.get(field, adapter.get(field, default))
of climate.py is captured once per field by the read helpers below and used in
hvac_mode, hvac_action and the command builders exactly where the source
repeats the expression. -/

/-- The operation-mode read of hvac_mode and hvac_action:
device_data.get with fallback to the adapter and default OPERATION_MODE_OFF. -/
def opRead (s : DeviceState) : String :=
  (firstSome s.device_data.operationMode s.zone_data.adapterD.operationMode).getD
    OPERATION_MODE_OFF

/-- The power read of hvac_mode and hvac_action:
device_data.get with fallback to the adapter and default 0. -/
def powerRead (s : DeviceState) : Int :=
  (firstSome s.device_data.power s.zone_data.adapterD.power).getD 0

/-- The cool-setpoint read used by the command builders:
device_data.get with fallback to the adapter, no default. -/
def spCoolRead (s : DeviceState) : Option ℚ :=
  firstSome s.device_data.spCool s.zone_data.adapterD.spCool

/-- The heat-setpoint read used by the command builders:
device_data.get with fallback to the adapter, no default. -/
def spHeatRead (s : DeviceState) : Option ℚ :=
  firstSome s.device_data.spHeat s.zone_data.adapterD.spHeat

/-- KumoCloudClimate.current_temperature: reads only the zone adapter roomTemp. -/
def current_temperature (s : DeviceState) : Option ℚ :=
  s.zone_data.adapterD.roomTemp

/-- KumoCloudTemperatureSensor.native_value: reads only the zone adapter roomTemp. -/
def temperature_native_value (s : DeviceState) : Option ℚ :=
  s.zone_data.adapterD.roomTemp

/-- KumoCloudHumiditySensor.native_value: device humidity first, adapter fallback. -/
def humidity_native_value (s : DeviceState) : Option Int :=
  firstSome s.device_data.humidity s.zone_data.adapterD.humidity

/-- KumoCloudClimate.hvac_mode: if the power read is 0 the mode is off,
otherwise the vendor operation-mode read is translated through
KUMO_TO_HVAC_MODE with HVACMode.off as the default for unknown values. -/
def hvac_mode (s : DeviceState) : HVACMode :=
  if powerRead s = 0 then HVACMode.off
  else (KUMO_TO_HVAC_MODE.lookup (opRead s)).getD HVACMode.off

/-- Python truthiness-aware or over optional floats, mirroring the expression
adapter.get spCool or adapter.get spHeat of target_temperature: a present but
zero cool setpoint is falsy and falls through to the heat setpoint. -/
def pyOrQ (a b : Option ℚ) : Option ℚ :=
  match a with
  | none => b
  | some v => if v = 0 then b else some v

/-- KumoCloudClimate.target_temperature: the adapter setpoint selected by the
current hvac_mode; none for modes other than cool, heat and heat_cool. -/
def target_temperature (s : DeviceState) : Option ℚ :=
  match hvac_mode s with
  | HVACMode.cool => s.zone_data.adapterD.spCool
  | HVACMode.heat => s.zone_data.adapterD.spHeat
  | HVACMode.heat_cool => pyOrQ s.zone_data.adapterD.spCool s.zone_data.adapterD.spHeat
  | _ => none

/-- KumoCloudClimate.hvac_action: off when the mode is off or the power read is
0; mirrors the vendor operation mode for heat, cool, dry and vent; for auto,
compares current and target temperature with a one-degree band; idle otherwise. -/
def hvac_action (s : DeviceState) : HVACAction :=
  if hvac_mode s = HVACMode.off then HVACAction.off
  else if powerRead s = 0 then HVACAction.off
  else if opRead s = OPERATION_MODE_HEAT then HVACAction.heating
  else if opRead s = OPERATION_MODE_COOL then HVACAction.cooling
  else if opRead s = OPERATION_MODE_DRY then HVACAction.drying
  else if opRead s = OPERATION_MODE_VENT then HVACAction.fan
  else if opRead s = OPERATION_MODE_AUTO then
    match current_temperature s, target_temperature s with
    | some ct, some tt =>
      if ct - tt > 1 then HVACAction.cooling
      else if ct - tt < -1 then HVACAction.heating
      else HVACAction.idle
    | _, _ => HVACAction.idle
  else HVACAction.idle

/-- KumoCloudClimate.hvac_modes: always starts with off; when a profile object
is available, appends heat when flagged, then cool unconditionally, then dry and
fan_only when flagged, then heat_cool when heat is flagged. -/
def hvac_modes (s : DeviceState) : List HVACMode :=
  match s.profile_data.first? with
  | none => [HVACMode.off]
  | some pd =>
    [HVACMode.off]
      ++ (if pd.hasModeHeat.getD false then [HVACMode.heat] else [])
      ++ [HVACMode.cool]
      ++ (if pd.hasModeDry.getD false then [HVACMode.dry] else [])
      ++ (if pd.hasModeVent.getD false then [HVACMode.fan_only] else [])
      ++ (if pd.hasModeHeat.getD false then [HVACMode.heat_cool] else [])

/-- KumoCloudClimate.fan_mode: device fanSpeed first, adapter fallback, then the
vendor value translated through API_TO_UI_FAN with pass-through for unknown
values; none when neither snapshot carries a fan speed. -/
def fan_mode (s : DeviceState) : Option String :=
  match firstSome s.device_data.fanSpeed s.zone_data.adapterD.fanSpeed with
  | none => none
  | some v => some ((API_TO_UI_FAN.lookup v).getD v)

/-- KumoCloudClimate.fan_modes: the full fixed UI fan vocabulary, returned
unconditionally (UI_FAN_ORDER.copy in climate.py). -/
def fan_modes (_ : DeviceState) : List String := UI_FAN_ORDER

/-- KumoCloudClimate.swing_mode: device airDirection first, adapter fallback,
then the vendor value translated through API_TO_UI_VANE with pass-through. -/
def swing_mode (s : DeviceState) : Option String :=
  match firstSome s.device_data.airDirection s.zone_data.adapterD.airDirection with
  | none => none
  | some v => some ((API_TO_UI_VANE.lookup v).getD v)

/-- The feature flags computed by KumoCloudClimate.setup_supported_features:
target temperature and the power toggles are always on; fan mode requires a
profile with a positive numberOfFanSpeeds; swing mode requires a profile with
either vane flag set. -/
structure SupportedFeatures where
  target_temperature_flag : Bool
  turn_off_flag : Bool
  turn_on_flag : Bool
  fan_mode_flag : Bool
  swing_mode_flag : Bool
deriving DecidableEq, Repr

/-- KumoCloudClimate private feature setup: base features plus the
profile-gated fan and swing flags. -/
def setup_supported_features (s : DeviceState) : SupportedFeatures :=
  match s.profile_data.first? with
  | none =>
    { target_temperature_flag := true, turn_off_flag := true, turn_on_flag := true,
      fan_mode_flag := false, swing_mode_flag := false }
  | some pd =>
    { target_temperature_flag := true, turn_off_flag := true, turn_on_flag := true,
      fan_mode_flag := pd.numberOfFanSpeeds.getD 0 > 0,
      swing_mode_flag := pd.hasVaneSwing.getD false || pd.hasVaneDir.getD false }

/-! ## CommandBuilder: async_set_temperature (climate.py lines 444-474) -/

/-- The setpoint fields of the command payload built by async_set_temperature;
a none field is absent from the Python commands dictionary. -/
structure TempCommands where
  spCool : Option ℚ := none
  spHeat : Option ℚ := none
deriving DecidableEq, Repr

/-- KumoCloudClimate.async_set_temperature: given the requested temperature
keyword (none when absent, in which case nothing is sent), builds the command
payload by the current hvac_mode: cool sets spCool and carries the known heat
setpoint; heat sets spHeat and carries the known cool setpoint; heat_cool sets
spCool to the request and spHeat two degrees lower; other modes build an empty
payload, and an empty payload is not sent (result none). -/
def async_set_temperature (s : DeviceState) (kw_temperature : Option ℚ) :
    Option TempCommands :=
  match kw_temperature with
  | none => none
  | some target_temp =>
    let commands : TempCommands :=
      if hvac_mode s = HVACMode.cool then
        { spCool := some target_temp, spHeat := spHeatRead s }
      else if hvac_mode s = HVACMode.heat then
        { spHeat := some target_temp, spCool := spCoolRead s }
      else if hvac_mode s = HVACMode.heat_cool then
        { spCool := some target_temp, spHeat := some (target_temp - 2) }
      else {}
    if commands = ({} : TempCommands) then none else some commands

/-! ## CloudClient: login and the authenticated request loop (api.py) -/

/-- Outcome of one HTTP round trip as seen by the retry loop of api.py:
an HTTP status code or a network timeout. -/
inductive HttpOutcome where
  | status (code : Nat)
  | timeout
deriving DecidableEq, Repr

/-- The two error kinds surfaced by api.py: KumoCloudAuthError and
KumoCloudConnectionError, each carrying its message. -/
inductive ApiError where
  | authError (msg : String)
  | connError (msg : String)
deriving DecidableEq, Repr

/-- Result of a client operation: success or one of the two error kinds. -/
inductive ReqOutcome where
  | ok
  | err (e : ApiError)
deriving DecidableEq, Repr

/-- Maximum attempt count of the retry loops in api.py (max_retries = 3). -/
def MAX_RETRIES : Nat := 3

/-- Initial backoff delay in seconds of the retry loops in api.py (retry_delay = 60). -/
def INITIAL_RETRY_DELAY : Nat := 60

/-- The retry loop body of KumoCloudAPI. The fuel argument is the number of
attempts still permitted including the current one, so positive remaining fuel
after consuming the current response corresponds to the Python guard
attempt lt max_retries - 1. Each iteration consumes one response from the
oracle list and counts one attempt. A 429 with attempts remaining sleeps the
current delay (recorded in the sleeps accumulator), doubles the delay and
retries; a final 429 fails with the rate-limit ConnectionError without a
further sleep. A status below 400 is a success. A 401 raises through
raise_for_status and is mapped to AuthError. Any other error status maps to a
ConnectionError carrying the status. A timeout retries immediately with no
sleep while attempts remain, else fails with the timeout ConnectionError. -/
def requestGo : Nat → Nat → List HttpOutcome → List Nat → Nat →
    ReqOutcome × List Nat × Nat
  | 0, _, _, sleeps, att => (ReqOutcome.err (ApiError.connError "loop exhausted"), sleeps, att)
  | _ + 1, _, [], sleeps, att => (ReqOutcome.err (ApiError.connError "no response"), sleeps, att)
  | fuel + 1, delay, r :: rest, sleeps, att =>
    match r with
    | HttpOutcome.status code =>
      if code = 429 then
        if 0 < fuel then
          requestGo fuel (delay * 2) rest (sleeps ++ [delay]) (att + 1)
        else
          (ReqOutcome.err (ApiError.connError "Rate limit exceeded. Please try again later."),
           sleeps, att + 1)
      else if code < 400 then (ReqOutcome.ok, sleeps, att + 1)
      else if code = 401 then
        (ReqOutcome.err (ApiError.authError "Authentication failed"), sleeps, att + 1)
      else
        (ReqOutcome.err (ApiError.connError ("HTTP error: " ++ toString code)), sleeps, att + 1)
    | HttpOutcome.timeout =>
      if 0 < fuel then requestGo fuel delay rest sleeps (att + 1)
      else (ReqOutcome.err (ApiError.connError "Request timeout"), sleeps, att + 1)

/-- KumoCloudAPI private authenticated request, driven by an oracle list of HTTP
outcomes: runs the retry loop with 3 attempts and a 60-second initial delay and
returns the result, the list of backoff sleeps performed (in seconds, in order)
and the number of HTTP attempts issued. -/
def requestRun (responses : List HttpOutcome) : ReqOutcome × List Nat × Nat :=
  requestGo MAX_RETRIES INITIAL_RETRY_DELAY responses [] 0

/-- Modelled from the spec: TOKEN_REFRESH_INTERVAL lives in the missing
const.py; the spec calls it the fixed vendor-specified refresh interval used as
the token TTL. Its numeric value is irrelevant to every claim proved here. -/
def TOKEN_REFRESH_INTERVAL : Nat := 1800

/-- The token state of KumoCloudAPI: username, access and refresh tokens and
the expiry timestamp, all absent until a successful login stores them. -/
structure TokenState where
  username : Option String := none
  access_token : Option String := none
  refresh_token : Option String := none
  token_expires_at : Option Nat := none
deriving DecidableEq, Repr

/-- Outcome of the login HTTP round trip: a status code together with the
token pair the body would carry on success, or a network timeout. -/
inductive LoginOutcome where
  | status (code : Nat) (access : String) (refresh : String)
  | timeout
deriving DecidableEq, Repr

/-- KumoCloudAPI.login. On a 403 the try body raises the AuthError with the
invalid-credentials message, but that exception is neither a TimeoutError nor a
ClientResponseError, so the trailing except-Exception handler catches it and
re-raises it as a ConnectionError whose message wraps the original one; the
observable failure on 403 is therefore a ConnectionError. A timeout fails with
ConnectionError directly; any other error status raises through
raise_for_status and fails with a ConnectionError carrying the status (the
403 branch of the ClientResponseError handler is unreachable, since a 403 never
reaches raise_for_status). Only a success response stores the username, both
tokens and the expiry timestamp, all in the same operation. -/
def login (st : TokenState) (username : String) (now : Nat) (o : LoginOutcome) :
    ReqOutcome × TokenState :=
  match o with
  | LoginOutcome.timeout =>
    (ReqOutcome.err (ApiError.connError "Connection timeout"), st)
  | LoginOutcome.status code access refresh =>
    if code = 403 then
      (ReqOutcome.err
        (ApiError.connError "Unexpected error: Invalid username or password"), st)
    else if code < 400 then
      (ReqOutcome.ok,
       { username := some username,
         access_token := some access,
         refresh_token := some refresh,
         token_expires_at := some (now + TOKEN_REFRESH_INTERVAL) })
    else
      (ReqOutcome.err (ApiError.connError ("HTTP error: " ++ toString code)), st)

/-! ## Theorems -/

theorem firstSome_eq_some {α : Type} (v : α) (b : Option α) :
    firstSome (some v) b = some v := rfl

theorem firstSome_eq_none {α : Type} (b : Option α) : firstSome none b = b := rfl

/-- Claim C1: the six-key fan tables and the seven-key vane tables are exact
inverses of each other in both directions: composing a vendor-to-UI entry with a
UI-to-vendor lookup returns the original vendor key, and conversely, for every
entry of each table; the fan tables have six entries and the vane tables seven. -/
theorem fan_vane_maps_inverse :
    (API_TO_UI_FAN.all (fun p => UI_TO_API_FAN.lookup p.2 == some p.1) = true)
    ∧ (UI_TO_API_FAN.all (fun p => API_TO_UI_FAN.lookup p.2 == some p.1) = true)
    ∧ (API_TO_UI_VANE.all (fun p => UI_TO_API_VANE.lookup p.2 == some p.1) = true)
    ∧ (UI_TO_API_VANE.all (fun p => API_TO_UI_VANE.lookup p.2 == some p.1) = true)
    ∧ API_TO_UI_FAN.length = 6 ∧ UI_TO_API_FAN.length = 6
    ∧ API_TO_UI_VANE.length = 7 ∧ UI_TO_API_VANE.length = 7 := by
  decide

theorem requestGo_attempts_le (fuel : Nat) :
    ∀ delay rs sleeps att, (requestGo fuel delay rs sleeps att).2.2 ≤ att + fuel := by
  induction fuel with
  | zero => intro delay rs sleeps att; simp [requestGo]
  | succ n ih =>
    intro delay rs sleeps att
    cases rs with
    | nil => simp [requestGo]
    | cons r rest =>
      cases r with
      | status code =>
        simp only [requestGo]
        split
        · split
          · exact le_trans (ih _ _ _ _) (by omega)
          · simp
        · split
          · simp
          · split
            · simp
            · simp
      | timeout =>
        simp only [requestGo]
        split
        · exact le_trans (ih _ _ _ _) (by omega)
        · simp

/-- Claim C2: on consecutive 429 responses the authenticated request path
sleeps 60 seconds before the second attempt, 120 seconds before the third,
and a third consecutive 429 fails with the rate-limit ConnectionError with
no further sleep; and for every response sequence at most 3 HTTP attempts
are ever issued. -/
theorem rate_limit_backoff :
    (∀ rest, requestRun (HttpOutcome.status 429 :: HttpOutcome.status 429 ::
        HttpOutcome.status 429 :: rest) =
      (ReqOutcome.err (ApiError.connError "Rate limit exceeded. Please try again later."),
       [60, 120], 3))
    ∧ (∀ responses, (requestRun responses).2.2 ≤ 3) := by
  constructor
  · intro rest; rfl
  · intro responses
    have h := requestGo_attempts_le MAX_RETRIES INITIAL_RETRY_DELAY responses [] 0
    simpa [requestRun, MAX_RETRIES] using h

/-- Claim C3: a 401 response on an authenticated request fails immediately with
AuthError after a single HTTP attempt, with no backoff sleep and no retry,
whatever responses would have followed. -/
theorem auth_401_no_retry :
    ∀ rest, requestRun (HttpOutcome.status 401 :: rest) =
      (ReqOutcome.err (ApiError.authError "Authentication failed"), [], 1) := by
  intro rest; rfl

/-- Claim C9, evaluated at the failing input: a 403 login response fails with
the catch-all ConnectionError wrapping the invalid-credentials message, not
with AuthError as the claim states, because the AuthError raised in the try
body is re-wrapped by the trailing except-Exception handler; the rest of the
claim holds: a timeout fails with ConnectionError, both failures leave the
token state untouched, and the token state changes only when login succeeds. -/
theorem login_403_wrapped_connection_error :
    (∀ st u now a r, login st u now (LoginOutcome.status 403 a r) =
      (ReqOutcome.err
        (ApiError.connError "Unexpected error: Invalid username or password"), st))
    ∧ (∀ st u now, login st u now LoginOutcome.timeout =
      (ReqOutcome.err (ApiError.connError "Connection timeout"), st))
    ∧ (∀ st u now o, (login st u now o).1 = ReqOutcome.ok ∨ (login st u now o).2 = st) := by
  refine ⟨fun st u now a r => rfl, fun st u now => rfl, ?_⟩
  intro st u now o
  cases o with
  | timeout => right; rfl
  | status code a r =>
    by_cases h403 : code = 403
    · right; simp [login, h403]
    · by_cases hlt : code < 400
      · left; simp [login, h403, hlt]
      · right; simp [login, h403, hlt]

/-- Claim C4: whenever the power field, read device-snapshot-first with zone
adapter fallback and default 0, equals 0, the effective HVAC mode is off
regardless of the operation-mode field; in particular a device snapshot with
power 0 and operationMode cool yields mode off. -/
theorem power_zero_mode_off :
    (∀ s : DeviceState, powerRead s = 0 → hvac_mode s = HVACMode.off)
    ∧ hvac_mode { device_data := { power := some 0, operationMode := some "cool" } } =
        HVACMode.off := by
  constructor
  · intro s h
    unfold hvac_mode
    rw [if_pos h]
  · rfl

/-- Witness for claim C4 at the device snapshot with power 0 and operationMode
cool, discharging the power-read hypothesis there. -/
theorem power_zero_mode_off_witness :
    hvac_mode { device_data := { power := some 0, operationMode := some "cool" } } =
      HVACMode.off :=
  power_zero_mode_off.1
    { device_data := { power := some 0, operationMode := some "cool" } } rfl

/-- Claim C5: when the effective mode is off the action is off; with power on,
the vendor operation modes heat, cool, dry and vent yield the actions heating,
cooling, drying and fan; in auto mode the action is cooling when the current
temperature exceeds the target by more than one degree, heating when it is more
than one degree below, idle when within the band, and idle when either
temperature is unavailable; the action always lies in the six-value action
vocabulary, never an unknown value. -/
theorem action_inference :
    (∀ s : DeviceState, hvac_mode s = HVACMode.off → hvac_action s = HVACAction.off)
    ∧ (∀ s : DeviceState, powerRead s ≠ 0 →
        (opRead s = OPERATION_MODE_HEAT → hvac_action s = HVACAction.heating)
        ∧ (opRead s = OPERATION_MODE_COOL → hvac_action s = HVACAction.cooling)
        ∧ (opRead s = OPERATION_MODE_DRY → hvac_action s = HVACAction.drying)
        ∧ (opRead s = OPERATION_MODE_VENT → hvac_action s = HVACAction.fan)
        ∧ (opRead s = OPERATION_MODE_AUTO →
            (∀ ct tt : ℚ, current_temperature s = some ct →
              target_temperature s = some tt →
              (ct - tt > 1 → hvac_action s = HVACAction.cooling)
              ∧ (ct - tt < -1 → hvac_action s = HVACAction.heating)
              ∧ (-1 ≤ ct - tt → ct - tt ≤ 1 → hvac_action s = HVACAction.idle))
            ∧ (current_temperature s = none ∨ target_temperature s = none →
                hvac_action s = HVACAction.idle)))
    ∧ (∀ s : DeviceState, hvac_action s ∈
        [HVACAction.off, HVACAction.heating, HVACAction.cooling, HVACAction.drying,
         HVACAction.fan, HVACAction.idle]) := by
  refine ⟨?_, ?_, ?_⟩
  · intro s h
    unfold hvac_action
    rw [h, if_pos rfl]
  · intro s hp
    refine ⟨?_, ?_, ?_, ?_, ?_⟩
    · intro hop
      have hm : hvac_mode s = HVACMode.heat := by
        unfold hvac_mode; rw [if_neg hp, hop]; decide
      unfold hvac_action
      rw [hm, hop, if_neg (by decide), if_neg hp, if_pos rfl]
    · intro hop
      have hm : hvac_mode s = HVACMode.cool := by
        unfold hvac_mode; rw [if_neg hp, hop]; decide
      unfold hvac_action
      rw [hm, hop, if_neg (by decide), if_neg hp, if_neg (by decide), if_pos rfl]
    · intro hop
      have hm : hvac_mode s = HVACMode.dry := by
        unfold hvac_mode; rw [if_neg hp, hop]; decide
      unfold hvac_action
      rw [hm, hop, if_neg (by decide), if_neg hp, if_neg (by decide),
        if_neg (by decide), if_pos rfl]
    · intro hop
      have hm : hvac_mode s = HVACMode.fan_only := by
        unfold hvac_mode; rw [if_neg hp, hop]; decide
      unfold hvac_action
      rw [hm, hop, if_neg (by decide), if_neg hp, if_neg (by decide),
        if_neg (by decide), if_neg (by decide), if_pos rfl]
    · intro hop
      have hm : hvac_mode s = HVACMode.heat_cool := by
        unfold hvac_mode; rw [if_neg hp, hop]; decide
      constructor
      · intro ct tt hct htt
        refine ⟨?_, ?_, ?_⟩
        · intro hgt
          unfold hvac_action
          rw [hm, hop, if_neg (by decide), if_neg hp, if_neg (by decide),
            if_neg (by decide), if_neg (by decide), if_neg (by decide),
            if_pos rfl, hct, htt]
          simp only []
          rw [if_pos hgt]
        · intro hlt
          unfold hvac_action
          rw [hm, hop, if_neg (by decide), if_neg hp, if_neg (by decide),
            if_neg (by decide), if_neg (by decide), if_neg (by decide),
            if_pos rfl, hct, htt]
          simp only []
          rw [if_neg (by linarith), if_pos hlt]
        · intro hge hle
          unfold hvac_action
          rw [hm, hop, if_neg (by decide), if_neg hp, if_neg (by decide),
            if_neg (by decide), if_neg (by decide), if_neg (by decide),
            if_pos rfl, hct, htt]
          simp only []
          rw [if_neg (by linarith), if_neg (by linarith)]
      · intro hmiss
        unfold hvac_action
        rw [hm, hop, if_neg (by decide), if_neg hp, if_neg (by decide),
          if_neg (by decide), if_neg (by decide), if_neg (by decide), if_pos rfl]
        rcases hmiss with hmiss | hmiss
        · rw [hmiss]
        · rw [hmiss]
          cases current_temperature s <;> rfl
  · intro s
    cases h : hvac_action s <;> simp

/-- Witness for claim C5 at a power-on auto-mode state whose current
temperature 24 exceeds the cool setpoint 21 by more than one degree,
discharging every hypothesis of the auto-cooling branch there. -/
theorem action_inference_witness :
    hvac_action { zone_data := { adapter := some { roomTemp := some 24, spCool := some 21, power := some 1, operationMode := some "auto" } } } = HVACAction.cooling := by
  have h := ((action_inference.2.1
    { zone_data := { adapter := some { roomTemp := some 24, spCool := some 21, power := some 1, operationMode := some "auto" } } }
    (by decide)).2.2.2.2 rfl).1 24 21 rfl rfl
  exact h.1 (by norm_num)

/-- Counterexample to claim C6: with a device-level roomTemp of 25 and a zone
adapter roomTemp of 20 both present, the current-temperature reader returns the
adapter value 20, not the device value, so it does not prefer the device-level
value. -/
theorem temp_reader_ignores_device_cex :
    current_temperature { zone_data := { adapter := some { roomTemp := some 20 } }, device_data := { roomTemp := some 25 } } = some 20
    ∧ ({ zone_data := { adapter := some { roomTemp := some 20 } }, device_data := { roomTemp := some 25 } } : DeviceState).device_data.roomTemp = some 25
    ∧ current_temperature { zone_data := { adapter := some { roomTemp := some 20 } }, device_data := { roomTemp := some 25 } } ≠ some 25 := by
  refine ⟨rfl, rfl, ?_⟩
  intro h
  have : (20 : ℚ) = 25 := Option.some.inj h
  norm_num at this

/-- Claim C6 as amended: the humidity, fan-speed and vane-position readers read
the device-level field first and fall back to the zone adapter field, with the
vendor fan and vane values translated through the codec tables; the
current-temperature readers of the climate entity and the temperature sensor
read only the zone adapter roomTemp and ignore any device-level value. -/
theorem readers_precedence :
    (∀ s : DeviceState, current_temperature s = s.zone_data.adapterD.roomTemp)
    ∧ (∀ s : DeviceState, temperature_native_value s = s.zone_data.adapterD.roomTemp)
    ∧ (∀ (s : DeviceState) (dv : String), s.device_data.fanSpeed = some dv →
        fan_mode s = some ((API_TO_UI_FAN.lookup dv).getD dv))
    ∧ (∀ (s : DeviceState) (av : String), s.device_data.fanSpeed = none →
        s.zone_data.adapterD.fanSpeed = some av →
        fan_mode s = some ((API_TO_UI_FAN.lookup av).getD av))
    ∧ (∀ (s : DeviceState) (dv : String), s.device_data.airDirection = some dv →
        swing_mode s = some ((API_TO_UI_VANE.lookup dv).getD dv))
    ∧ (∀ (s : DeviceState) (av : String), s.device_data.airDirection = none →
        s.zone_data.adapterD.airDirection = some av →
        swing_mode s = some ((API_TO_UI_VANE.lookup av).getD av))
    ∧ (∀ (s : DeviceState) (dv : Int), s.device_data.humidity = some dv →
        humidity_native_value s = some dv)
    ∧ (∀ s : DeviceState, s.device_data.humidity = none →
        humidity_native_value s = s.zone_data.adapterD.humidity) := by
  refine ⟨fun s => rfl, fun s => rfl, ?_, ?_, ?_, ?_, ?_, ?_⟩
  · intro s dv h; unfold fan_mode; rw [h]; rfl
  · intro s av h1 h2; unfold fan_mode; rw [h1]; unfold firstSome; rw [h2]
  · intro s dv h; unfold swing_mode; rw [h]; rfl
  · intro s av h1 h2; unfold swing_mode; rw [h1]; unfold firstSome; rw [h2]
  · intro s dv h; unfold humidity_native_value; rw [h]; rfl
  · intro s h; unfold humidity_native_value; rw [h]; rfl

/-- Witness for claim C6 as amended: at a state where the device snapshot
carries vendor fan speed quiet, the fan-mode reader uses the device value and
translates it to the UI label low. -/
theorem readers_precedence_witness :
    fan_mode { device_data := { fanSpeed := some "quiet" }, zone_data := { adapter := some { fanSpeed := some "auto" } } } = some "low" := by
  have h := readers_precedence.2.2.1
    { device_data := { fanSpeed := some "quiet" }, zone_data := { adapter := some { fanSpeed := some "auto" } } }
    "quiet" rfl
  exact h.trans (by decide)

/-- Counterexample to claim C7: with no capability profile cached the mode list
is exactly the one-element list containing off, so it does not include cool. -/
theorem missing_profile_modes_cex :
    hvac_modes { profile_data := Profile.missing } = [HVACMode.off]
    ∧ HVACMode.cool ∉ hvac_modes { profile_data := Profile.missing } := by
  decide

/-- Claim C7 as amended: whenever a profile object is available (a single
object or the head of a nonempty list), the mode list starts with off and
always includes cool; it includes heat exactly when the heat flag is set, dry
and fan_only exactly when their flags are set, and heat_cool exactly when the
heat flag is set; with no profile available the list is exactly off. -/
theorem capability_gated_modes :
    (∀ (s : DeviceState) (pd : ProfileData), s.profile_data.first? = some pd →
      (hvac_modes s).head? = some HVACMode.off
      ∧ HVACMode.cool ∈ hvac_modes s
      ∧ (HVACMode.heat ∈ hvac_modes s ↔ pd.hasModeHeat.getD false = true)
      ∧ (HVACMode.dry ∈ hvac_modes s ↔ pd.hasModeDry.getD false = true)
      ∧ (HVACMode.fan_only ∈ hvac_modes s ↔ pd.hasModeVent.getD false = true)
      ∧ (HVACMode.heat_cool ∈ hvac_modes s ↔ pd.hasModeHeat.getD false = true))
    ∧ (∀ s : DeviceState, s.profile_data.first? = none →
        hvac_modes s = [HVACMode.off]) := by
  constructor
  · intro s pd h
    cases hh : pd.hasModeHeat.getD false
      <;> cases hd : pd.hasModeDry.getD false
      <;> cases hv : pd.hasModeVent.getD false
      <;> simp [hvac_modes, h, hh, hd, hv]
  · intro s h
    simp [hvac_modes, h]

/-- Witness for claim C7 as amended at a one-element list profile flagging heat
only: the mode list is off, heat, cool, heat_cool, so heat_cool is present. -/
theorem capability_gated_modes_witness :
    HVACMode.heat_cool ∈ hvac_modes { profile_data := Profile.arr [{ hasModeHeat := some true }] } := by
  have h := capability_gated_modes.1
    { profile_data := Profile.arr [{ hasModeHeat := some true }] }
    { hasModeHeat := some true } rfl
  exact h.2.2.2.2.2.mpr rfl

/-- Claim C8: setting a temperature t while in cool mode builds the payload
with spCool t and the known heat setpoint carried forward unchanged; in heat
mode it builds spHeat t carrying the known cool setpoint; in heat_cool mode it
builds exactly spCool t and spHeat t minus 2. -/
theorem setpoint_commands :
    (∀ (s : DeviceState) (t h : ℚ), hvac_mode s = HVACMode.cool →
      spHeatRead s = some h →
      async_set_temperature s (some t) =
        some { spCool := some t, spHeat := some h })
    ∧ (∀ (s : DeviceState) (t c : ℚ), hvac_mode s = HVACMode.heat →
      spCoolRead s = some c →
      async_set_temperature s (some t) =
        some { spCool := some c, spHeat := some t })
    ∧ (∀ (s : DeviceState) (t : ℚ), hvac_mode s = HVACMode.heat_cool →
      async_set_temperature s (some t) =
        some { spCool := some t, spHeat := some (t - 2) }) := by
  refine ⟨?_, ?_, ?_⟩
  · intro s t h hm hsp
    unfold async_set_temperature
    rw [hm, hsp]
    simp
  · intro s t c hm hsp
    unfold async_set_temperature
    rw [hm, hsp]
    simp
  · intro s t hm
    unfold async_set_temperature
    rw [hm]
    simp

/-- Witness for claim C8 at a cool-mode state with a known heat setpoint of 20
and requested temperature 22: the payload carries spCool 22 and spHeat 20. -/
theorem setpoint_commands_witness :
    async_set_temperature { zone_data := { adapter := some { operationMode := some "cool", power := some 1, spHeat := some 20 } } } (some 22) =
      some { spCool := some 22, spHeat := some 20 } :=
  setpoint_commands.1
    { zone_data := { adapter := some { operationMode := some "cool", power := some 1, spHeat := some 20 } } }
    22 20 (by decide) rfl

/-- Claim C10: the fan-mode list offered to callers is always the full fixed
six-element ordered UI vocabulary, independent of the device profile; the
profile numberOfFanSpeeds field gates only the fan-mode feature flag, which is
set exactly when a profile object is available with a positive
numberOfFanSpeeds. -/
theorem fan_modes_fixed :
    (∀ s : DeviceState,
      fan_modes s = ["auto", "quiet", "low", "medium", "high", "powerful"])
    ∧ (∀ s₁ s₂ : DeviceState, fan_modes s₁ = fan_modes s₂)
    ∧ (∀ s : DeviceState, (setup_supported_features s).fan_mode_flag = true ↔
        ∃ pd, s.profile_data.first? = some pd ∧ pd.numberOfFanSpeeds.getD 0 > 0) := by
  refine ⟨fun s => rfl, fun s₁ s₂ => rfl, ?_⟩
  intro s
  cases h : s.profile_data.first? with
  | none => simp [setup_supported_features, h]
  | some pd => simp [setup_supported_features, h]
